import Mathlib

/-!
Verification development for `src/deepsphere/gnn_transformers.py`.

Shallow embedding conventions:
* A tensor slice along the batch axis is a matrix `Mat := List (List ℝ)`
  (rows = sequence positions, columns = channels); batched tensors are
  lists of such matrices.  Machine floats are idealised as real numbers.
* Python exceptions are modelled with `Except PyErr`; an attribute read of a
  conditionally-created sublayer is an `Option` field whose `none` case
  raises `attributeError`, exactly as the Python object would.
* Stateful layer methods are translated statement by statement into
  state-passing functions `state → input → result × state`; the Python
  methods contain no writes to `self`, which the translation makes visible.
-/

namespace DeepSphere

/-- Python exception kinds raised (or raisable) by the embedded code. -/
inductive PyErr where
  | ioError
  | assertionError
  | attributeError
  | zeroDivisionError
  | invalidArgumentError
  deriving DecidableEq, Repr

/-- Whether a Python call completed without raising. -/
def exceptIsOk {α : Type} : Except PyErr α → Bool
  | .ok _ => true
  | .error _ => false

/-- A rank-2 real tensor: list of rows. -/
abbrev Mat := List (List ℝ)

/-- Dot product of two rows (`tf` contraction along the shared axis). -/
noncomputable def dot (xs ys : List ℝ) : ℝ :=
  (List.zipWith (fun a b => a * b) xs ys).sum

/-- `tf.matmul(a, b, transpose_b=True)`: entry (i, j) is `dot (row i of a) (row j of b)`. -/
noncomputable def matmulT (a b : Mat) : Mat :=
  a.map (fun r => b.map (fun s => dot r s))

/-- `tf.matmul(a, b)` for rectangular operands. -/
noncomputable def matmul (a b : Mat) : Mat :=
  matmulT a b.transpose

/-- Elementwise tensor addition (`+` on equally shaped tensors). -/
noncomputable def matAdd (a b : Mat) : Mat :=
  List.zipWith (List.zipWith (fun x y => x + y)) a b

/-- Multiplication of every entry by a scalar. -/
noncomputable def matScale (c : ℝ) (a : Mat) : Mat :=
  a.map (List.map (fun x => c * x))

/-- `tf.shape(k)[-1]`: the length of a row of a rectangular matrix. -/
def lastDim (k : Mat) : ℕ := (k.headD []).length

/-- `tf.nn.softmax` applied to one row (the last axis). -/
noncomputable def softmaxRow (xs : List ℝ) : List ℝ :=
  xs.map (fun a => Real.exp a / (xs.map Real.exp).sum)

/-- `tf.nn.softmax(m, axis=-1)` on a rank-2 tensor. -/
noncomputable def softmax (m : Mat) : Mat := m.map softmaxRow

/-- Lines 9-46: `scaled_dot_product_attention(q, k, v, mask)`, translated
statement by statement.  Returns `(output, attention_weights)`. -/
noncomputable def scaled_dot_product_attention (q k v : Mat) (mask : Option Mat) :
    Mat × Mat :=
  let matmul_qk := matmulT q k
  let dk : ℝ := (lastDim k : ℝ)
  let scaled_attention_logits := matmul_qk.map (List.map (fun x => x / Real.sqrt dk))
  let scaled_attention_logits :=
    match mask with
    | none => scaled_attention_logits
    | some m => matAdd scaled_attention_logits (matScale (-1000000000) m)
  let attention_weights := softmax scaled_attention_logits
  let output := matmul attention_weights v
  (output, attention_weights)

/-- Modelled from the spec: the attention-weight formula the spec states,
"softmax over the last axis of (Q Kᵀ / sqrt(depth) + mask * -1e9) with depth
equal to K's last dimension, the mask term omitted when no mask is given". -/
noncomputable def specAttentionWeights (q k : Mat) (mask : Option Mat) : Mat :=
  match mask with
  | none =>
      softmax ((matmulT q k).map (List.map (fun x => x / Real.sqrt (lastDim k : ℝ))))
  | some m =>
      softmax (matAdd ((matmulT q k).map (List.map (fun x => x / Real.sqrt (lastDim k : ℝ))))
        (matScale (-1000000000) m))

/-- Tensor dtypes distinguished by the embedding (values are idealised reals,
so a cast only changes the tag, as precision is outside the model). -/
inductive DType where
  | float16
  | float32
  | float64
  deriving DecidableEq, Repr

/-- A batched rank-3 tensor with a dtype tag: data is (batch, seq, channels). -/
structure TTensor where
  dtype : DType
  data : List Mat

/-- `tf.cast(t, d)`: retags the tensor (values idealised as exact). -/
def tfCast (d : DType) (t : TTensor) : TTensor := ⟨d, t.data⟩

/-- `+` on tensors: dtype mismatch raises; a leading axis of size 1 on the
right operand broadcasts over the batch axis, as in line 86. -/
noncomputable def tfAddBroadcast (x y : TTensor) : Except PyErr TTensor :=
  if x.dtype ≠ y.dtype then .error .invalidArgumentError
  else if y.data.length = 1 then
    .ok ⟨x.dtype, x.data.map (fun m => matAdd m (y.data.headD []))⟩
  else .ok ⟨x.dtype, List.zipWith matAdd x.data y.data⟩

/-- Built state of `AddPositionEmbs`: the one learned weight created at
line 74 (`self.pos_embedding`, shape (1, seq, channels)). -/
structure APEState where
  pos_embedding : TTensor

/-- Lines 76-86: `AddPositionEmbs.call`, statement by statement, paired with
the state after the call (the method writes no attribute). -/
noncomputable def AddPositionEmbs_callS (s : APEState) (inputs : TTensor) :
    Except PyErr TTensor × APEState :=
  let pos_embedding := tfCast inputs.dtype s.pos_embedding
  (tfAddBroadcast inputs pos_embedding, s)

/-- The value `AddPositionEmbs.call` returns. -/
noncomputable def AddPositionEmbs_call (s : APEState) (inputs : TTensor) :
    Except PyErr TTensor :=
  (AddPositionEmbs_callS s inputs).1

/-- Built parameters of a `tf.keras.layers.Dense` sublayer:
kernel shape (d_in, units), bias length units. -/
structure DenseParams where
  kernel : Mat
  bias : List ℝ

/-- A dense layer applied to a rank-2 input: `y = x ⬝ kernel + bias`. -/
noncomputable def denseApply (p : DenseParams) (x : Mat) : Mat :=
  x.map (fun row => (List.range p.bias.length).map (fun j =>
    dot row (p.kernel.map (fun kr => kr.getD j 0)) + p.bias.getD j 0))

/-- Built parameters of `tf.keras.layers.LayerNormalization` (per-channel
scale gamma and offset beta; Keras default epsilon 0.001). -/
structure LayerNormParams where
  gamma : List ℝ
  beta : List ℝ

/-- Layer normalisation of one row over the last axis. -/
noncomputable def layerNormRow (p : LayerNormParams) (row : List ℝ) : List ℝ :=
  let n : ℝ := (row.length : ℝ)
  let mean := row.sum / n
  let variance := (row.map (fun a => (a - mean) ^ 2)).sum / n
  row.mapIdx (fun i a =>
    p.gamma.getD i 1 * ((a - mean) / Real.sqrt (variance + 1 / 1000)) + p.beta.getD i 0)

/-- `LayerNormalization` on a rank-2 input (normalises each row). -/
noncomputable def layerNorm (p : LayerNormParams) (x : Mat) : Mat :=
  x.map (layerNormRow p)

/-- The pointwise activations the repo passes by name to
`tf.keras.layers.Activation`. -/
inductive ActKind where
  | relu
  | linear
  deriving DecidableEq, Repr

/-- Application of an activation to one entry. -/
noncomputable def applyAct : ActKind → ℝ → ℝ
  | .relu, x => max x 0
  | .linear, x => x

/-- Lines 122-129: `split_heads` on one batch element — reshape
(seq, d_model) to (seq, num_heads, depth) and transpose to
(num_heads, seq, depth): head h holds columns [h*depth, (h+1)*depth). -/
def splitHeads (num_heads depth : ℕ) (x : Mat) : List Mat :=
  (List.range num_heads).map (fun h =>
    x.map (fun row => (row.drop (h * depth)).take depth))

/-- Lines 156-160: transpose heads back behind the sequence axis and merge
them into one d_model-wide row per position. -/
def concatHeads (hs : List Mat) : Mat :=
  (List.range (hs.headD []).length).map (fun i =>
    (hs.map (fun m => m.getD i [])).flatten)

/-- Built state of `MultiHeadAttention`: hyperparameters plus every sublayer
parameter.  `layer_norm1` / `layer_norm2` are `Option` because lines 114-116
create them only when `use_norm` is true; reading an absent one raises
`AttributeError`, as in Python. -/
structure MHAState where
  num_heads : ℕ
  d_model : ℕ
  depth : ℕ
  use_norm : Bool
  wq : DenseParams
  wk : DenseParams
  wv : DenseParams
  layer_norm1 : Option LayerNormParams
  layer_norm2 : Option LayerNormParams
  activation : ActKind
  dense : DenseParams

/-- The built state a `MultiHeadAttention` constructed with the given
`use_norm` holds: the norm sublayers exist exactly when `use_norm` is true
(lines 110-120, weight values supplied by the external initialiser). -/
def MultiHeadAttention_build (use_norm : Bool) (num_heads d_model depth : ℕ)
    (wq wk wv dense : DenseParams) (ln1 ln2 : LayerNormParams)
    (activation : ActKind) : MHAState :=
  { num_heads := num_heads
    d_model := d_model
    depth := depth
    use_norm := use_norm
    wq := wq
    wk := wk
    wv := wv
    layer_norm1 := if use_norm then some ln1 else none
    layer_norm2 := if use_norm then some ln2 else none
    activation := activation
    dense := dense }

/-- Lines 131-174: `MultiHeadAttention.call` on one batch element, statement
by statement, paired with the state after the call.  Line 142 reads
`self.layer_norm1` and line 166 reads `self.layer_norm2` unconditionally. -/
noncomputable def MultiHeadAttention_callS (s : MHAState) (inputs0 : Mat)
    (mask : Option Mat) : Except PyErr Mat × MHAState :=
  match s.layer_norm1 with
  | none => (.error .attributeError, s)
  | some ln1 =>
    let inputs := layerNorm ln1 inputs0
    let q := denseApply s.wq inputs
    let k := denseApply s.wk inputs
    let v := denseApply s.wv inputs
    let qh := splitHeads s.num_heads s.depth q
    let kh := splitHeads s.num_heads s.depth k
    let vh := splitHeads s.num_heads s.depth v
    let headOut := (List.range s.num_heads).map (fun h =>
      (scaled_dot_product_attention (qh.getD h []) (kh.getD h []) (vh.getD h []) mask).1)
    let concat_attention := matAdd inputs (concatHeads headOut)
    match s.layer_norm2 with
    | none => (.error .attributeError, s)
    | some ln2 =>
      let output1 := layerNorm ln2 concat_attention
      let output2 := denseApply s.dense output1
      let output3 := output2.map (List.map (applyAct s.activation))
      (.ok (matAdd output3 concat_attention), s)

/-- The value `MultiHeadAttention.call` returns (or the exception it raises). -/
noncomputable def MultiHeadAttention_call (s : MHAState) (inputs : Mat)
    (mask : Option Mat) : Except PyErr Mat :=
  (MultiHeadAttention_callS s inputs mask).1

/-- Built parameters of the embedding `tf.keras.layers.Conv1D`: kernel shape
(kernel_size, in_channels, filters), bias length = filters. -/
structure Conv1DParams where
  kernel : List Mat
  bias : List ℝ
  strides : ℕ

/-- Number of output positions of a valid-padding 1-D convolution. -/
def conv1dOutLen (n ksize strides : ℕ) : ℕ :=
  if n < ksize then 0 else (n - ksize) / strides + 1

/-- A valid-padding, channels-last `Conv1D` on one batch element. -/
noncomputable def conv1dValid (p : Conv1DParams) (x : Mat) : Mat :=
  (List.range (conv1dOutLen x.length p.kernel.length p.strides)).map (fun i =>
    (List.range p.bias.length).map (fun f =>
      p.bias.getD f 0 +
        ((List.range p.kernel.length).map (fun j =>
          dot (x.getD (i * p.strides + j) [])
            ((p.kernel.getD j []).map (fun kr => kr.getD f 0)))).sum))

/-- Built state of `Graph_ViT`: hyperparameters saved at lines 217-225,
the embedding convolution, the optional positional-encoding sublayer
(line 230-231) and the attention stack (lines 235-238). -/
structure GraphViTState where
  embed_filter_size : ℕ
  embedding_size : ℕ
  positional_encoding : Bool
  pos_encoder : Option APEState
  embed : Conv1DParams
  mha_layers : List MHAState

/-- Lines 271-272: the loop `for mha in self.mha_layers: x = mha(x)`,
threading each sublayer's state back into the list; an exception stops the
loop and leaves the remaining sublayers untouched. -/
noncomputable def mhaFold : List MHAState → Mat → Except PyErr Mat × List MHAState
  | [], x => (.ok x, [])
  | m :: ms, x =>
    match MultiHeadAttention_callS m x none with
    | (.ok y, m2) =>
      let r := mhaFold ms y
      (r.1, m2 :: r.2)
    | (.error e, m2) => (.error e, m2 :: ms)

/-- Lines 259-273: `Graph_ViT.call`, statement by statement, paired with the
state after the call.  The body is `x = self.embed(inputs)` followed by the
attention loop; no other attribute of `self` is read or written. -/
noncomputable def Graph_ViT_callS (s : GraphViTState) (inputs : Mat) :
    Except PyErr Mat × GraphViTState :=
  let x := conv1dValid s.embed inputs
  let r := mhaFold s.mha_layers x
  (r.1, { s with mha_layers := r.2 })

/-- The value `Graph_ViT.call` returns. -/
noncomputable def Graph_ViT_call (s : GraphViTState) (inputs : Mat) :
    Except PyErr Mat :=
  (Graph_ViT_callS s inputs).1

/-- Python `int(x)` on a float: truncation toward zero. -/
noncomputable def pyInt (x : ℝ) : ℤ := if 0 ≤ x then ⌊x⌋ else ⌈x⌉

/-- Line 218: `int(4 ** p)`, where p may be any rational the caller passes. -/
noncomputable def embedFilterSizeInt (p : ℚ) : ℤ := pyInt ((4 : ℝ) ^ (p : ℝ))

/-- Configuration a `MultiHeadAttention.__init__` call stores
(lines 94-120; the Dense/Activation sublayers carry no config beyond this). -/
structure MHAConfig where
  num_heads : ℤ
  d_model : ℤ
  use_norm : Bool
  depth : ℤ
  activation : ActKind
  deriving DecidableEq, Repr

/-- Lines 94-120: `MultiHeadAttention.__init__`.  Python `d_model % num_heads`
raises `ZeroDivisionError` when `num_heads == 0`; the `assert` at line 106
raises `AssertionError` when the remainder is non-zero. -/
def MultiHeadAttention_init (d_model num_heads : ℤ) (use_norm : Bool)
    (activation : ActKind) : Except PyErr MHAConfig :=
  if num_heads = 0 then .error .zeroDivisionError
  else if d_model % num_heads ≠ 0 then .error .assertionError
  else .ok
    { num_heads := num_heads
      d_model := d_model
      use_norm := use_norm
      depth := d_model / num_heads
      activation := activation }

/-- Configuration a successful `Graph_ViT.__init__` call stores
(lines 191-238). -/
structure GraphViTConfig where
  p : ℚ
  embed_filter_size : ℤ
  key_dim : ℤ
  num_heads : ℤ
  embedding_size : ℤ
  positional_encoding : Bool
  n_layers : ℤ
  layer_norm : Bool
  activation : ActKind
  mha_configs : List MHAConfig
  deriving DecidableEq, Repr

/-- Lines 235-238: the loop appending one freshly constructed
`MultiHeadAttention` per layer; the first construction error aborts it. -/
def mhaInitList (n : ℕ) (d_model num_heads : ℤ) (use_norm : Bool)
    (activation : ActKind) : Except PyErr (List MHAConfig) :=
  match n with
  | 0 => .ok []
  | Nat.succ m =>
    match MultiHeadAttention_init d_model num_heads use_norm activation with
    | .error e => .error e
    | .ok c =>
      match mhaInitList m d_model num_heads use_norm activation with
      | .error e => .error e
      | .ok cs => .ok (c :: cs)

/-- Lines 191-238: `Graph_ViT.__init__`.  Checks, in source order: `p > 1`
(line 213, `IOError`), then `n_layers >= 1` (line 234, `AssertionError`), then
constructs one `MultiHeadAttention` per layer with
`d_model = key_dim * num_heads` (lines 236-238). -/
noncomputable def Graph_ViT_init (p : ℚ) (key_dim num_heads : ℤ)
    (positional_encoding : Bool) (n_layers : ℤ) (activation : ActKind)
    (layer_norm : Bool) : Except PyErr GraphViTConfig :=
  if ¬ 1 < p then .error .ioError
  else if ¬ 1 ≤ n_layers then .error .assertionError
  else
    match mhaInitList n_layers.toNat (key_dim * num_heads) num_heads layer_norm activation with
    | .error e => .error e
    | .ok mhas => .ok
      { p := p
        embed_filter_size := embedFilterSizeInt p
        key_dim := key_dim
        num_heads := num_heads
        embedding_size := key_dim * num_heads
        positional_encoding := positional_encoding
        n_layers := n_layers
        layer_norm := layer_norm
        activation := activation
        mha_configs := mhas }

/-- Lines 68-74: `AddPositionEmbs.build` — the shape of the weight it creates
from the shape it is handed: `(1, inputs_shape[1], inputs_shape[2])`. -/
def AddPositionEmbs_build (inputs_shape : List ℤ) : List ℤ :=
  [1, inputs_shape.getD 1 0, inputs_shape.getD 2 0]

/-- Lines 241-256: `Graph_ViT.build` for an input shape (batch, n_nodes,
channels).  Returns the shape of the positional-embedding weight it creates
(when positional encoding is on); line 256 hands `pos_encoder.build` the raw
`input_shape`.  Python `%` by zero raises `ZeroDivisionError`. -/
def Graph_ViT_build (cfg : GraphViTConfig) (input_shape : List ℤ) :
    Except PyErr (Option (List ℤ)) :=
  let n_nodes := input_shape.getD 1 0
  if cfg.embed_filter_size = 0 then .error .zeroDivisionError
  else if n_nodes % cfg.embed_filter_size ≠ 0 then .error .ioError
  else .ok (if cfg.positional_encoding then some (AddPositionEmbs_build input_shape) else none)

/-- The configuration `Graph_ViT(p=2, key_dim=8, num_heads=2)` stores. -/
def cfg256 : GraphViTConfig :=
  { p := 2
    embed_filter_size := 16
    key_dim := 8
    num_heads := 2
    embedding_size := 16
    positional_encoding := true
    n_layers := 1
    layer_norm := true
    activation := .relu
    mha_configs := [{ num_heads := 2, d_model := 16, use_norm := true, depth := 8, activation := .relu }] }

/-- A zero-weight built embedding Conv1D for `cfg256` (kernel size and stride
16, 3 input channels, 16 filters). -/
noncomputable def convW : Conv1DParams :=
  ⟨List.replicate 16 (List.replicate 3 (List.replicate 16 0)), List.replicate 16 0, 16⟩

/-- A 256-node, 3-channel zero input signal (one batch element). -/
noncomputable def xNodes : Mat := List.replicate 256 (List.replicate 3 0)

end DeepSphere

namespace DeepSphere

theorem softmaxRow_sum_div (xs : List ℝ) (c : ℝ) :
    (xs.map (fun a => Real.exp a / c)).sum = (xs.map Real.exp).sum / c := by
  induction xs with
  | nil => simp
  | cons x t ih => simp [ih, add_div]

theorem softmaxRow_sum (xs : List ℝ) (h : xs ≠ []) : (softmaxRow xs).sum = 1 := by
  have hpos : 0 < (xs.map Real.exp).sum := by
    apply List.sum_pos
    · intro a ha
      obtain ⟨b, _, rfl⟩ := List.mem_map.mp ha
      exact Real.exp_pos b
    · simpa using h
  unfold softmaxRow
  rw [softmaxRow_sum_div, div_self (ne_of_gt hpos)]

theorem softmaxRow_nonneg (xs : List ℝ) : ∀ a ∈ softmaxRow xs, 0 ≤ a := by
  intro a ha
  obtain ⟨b, _, rfl⟩ := List.mem_map.mp ha
  refine div_nonneg (Real.exp_pos b).le (List.sum_nonneg ?_)
  intro y hy
  obtain ⟨z, _, rfl⟩ := List.mem_map.mp hy
  exact (Real.exp_pos z).le

/-- C4: `scaled_dot_product_attention` returns the pair
`(attention_weights ⬝ V, attention_weights)` where the weights are the softmax
over the last axis of `Q Kᵀ / sqrt(depth)` plus, when a mask is given, the
additive term `mask * -1e9`, and `depth` is K's last dimension.  The function
is a pure function of its arguments. -/
theorem scaled_dot_product_attention_formula (q k v : Mat) (mask : Option Mat) :
    scaled_dot_product_attention q k v mask =
      (matmul (specAttentionWeights q k mask) v, specAttentionWeights q k mask) := by
  cases mask <;> rfl

/-- C5: for square attention inputs with no mask, every row of the returned
attention-weight matrix sums to 1 and all its entries are non-negative. -/
theorem attention_weights_row_stochastic (n : ℕ) (q k v : Mat)
    (hn : 0 < n) (_hq : q.length = n) (hk : k.length = n) :
    ∀ r ∈ (scaled_dot_product_attention q k v none).2,
      r.sum = 1 ∧ ∀ a ∈ r, 0 ≤ a := by
  intro r hr
  have h2 : (scaled_dot_product_attention q k v none).2 =
      softmax ((matmulT q k).map (List.map (fun x => x / Real.sqrt (lastDim k : ℝ)))) := rfl
  rw [h2] at hr
  unfold softmax at hr
  obtain ⟨ys, hys, rfl⟩ := List.mem_map.mp hr
  obtain ⟨zs, hzs, rfl⟩ := List.mem_map.mp hys
  unfold matmulT at hzs
  obtain ⟨qi, hqi, rfl⟩ := List.mem_map.mp hzs
  refine ⟨softmaxRow_sum _ ?_, softmaxRow_nonneg _⟩
  have hlen : ((k.map (fun s => dot qi s)).map (fun x => x / Real.sqrt (lastDim k : ℝ))).length = n := by
    simp [hk]
  exact List.length_pos.mp (by rw [hlen]; exact hn)

/-- Witness for C5 at the concrete input Q = K = V = [[0]]. -/
theorem attention_weights_row_stochastic_witness :
    (softmaxRow [dot [(0 : ℝ)] [0] / Real.sqrt (lastDim [[(0 : ℝ)]] : ℝ)]).sum = 1 :=
  (attention_weights_row_stochastic 1 [[0]] [[0]] [[0]] (by decide) rfl rfl
    _ (List.mem_singleton.mpr rfl)).1

/-- C10: `AddPositionEmbs.call` casts the stored positional embedding to the
input's dtype before adding, so the call succeeds and the returned tensor has
the input's dtype, whatever dtype the stored parameter has. -/
theorem add_position_embs_preserves_dtype (s : APEState) (x : TTensor) :
    ∃ y, AddPositionEmbs_call s x = .ok y ∧ y.dtype = x.dtype := by
  unfold AddPositionEmbs_call AddPositionEmbs_callS tfAddBroadcast tfCast
  by_cases h : s.pos_embedding.data.length = 1 <;> simp [h]

/-- C2 evidence: a `MultiHeadAttention` constructed with `use_norm=False`
raises `AttributeError` on every call, because line 142 reads
`self.layer_norm1`, which lines 114-116 never created. -/
theorem mha_use_norm_false_call_raises (num_heads d_model depth : ℕ)
    (wq wk wv dense : DenseParams) (ln1 ln2 : LayerNormParams) (a : ActKind)
    (x : Mat) (mask : Option Mat) :
    MultiHeadAttention_call
      (MultiHeadAttention_build false num_heads d_model depth wq wk wv dense ln1 ln2 a)
      x mask = .error .attributeError := rfl

/-- C1 evidence: `Graph_ViT.call` never reads the positional-encoding
sublayer — its output is the attention stack applied directly to the patch
embedding, identical for every value of the positional embedding. -/
theorem graph_vit_call_skips_positional_embedding (s : GraphViTState)
    (pe pe' : Option APEState) (x : Mat) :
    Graph_ViT_call { s with pos_encoder := pe } x =
        Graph_ViT_call { s with pos_encoder := pe' } x ∧
      Graph_ViT_call s x = (mhaFold s.mha_layers (conv1dValid s.embed x)).1 :=
  ⟨rfl, rfl⟩

theorem mha_callS_snd (s : MHAState) (x : Mat) (mask : Option Mat) :
    (MultiHeadAttention_callS s x mask).2 = s := by
  unfold MultiHeadAttention_callS
  cases h1 : s.layer_norm1 with
  | none => rfl
  | some ln1 =>
    cases h2 : s.layer_norm2 with
    | none => simp [h2]
    | some ln2 => simp [h2]

theorem mhaFold_snd (ms : List MHAState) (x : Mat) : (mhaFold ms x).2 = ms := by
  induction ms generalizing x with
  | nil => rfl
  | cons m t ih =>
    rcases h : MultiHeadAttention_callS m x none with ⟨r, m2⟩
    have hm : m2 = m := by
      have := mha_callS_snd m x none
      rw [h] at this
      exact this
    unfold mhaFold
    rw [h]
    cases r with
    | error e => simp [hm]
    | ok y => simp [hm, ih]

/-- C8: for every built layer, `call` leaves the layer's state — weights and
hyperparameters — exactly as it found it; the forward pass only reads. -/
theorem layer_calls_leave_state_unchanged :
    (∀ (s : APEState) (x : TTensor), (AddPositionEmbs_callS s x).2 = s) ∧
    (∀ (s : MHAState) (x : Mat) (mask : Option Mat),
      (MultiHeadAttention_callS s x mask).2 = s) ∧
    (∀ (s : GraphViTState) (x : Mat), (Graph_ViT_callS s x).2 = s) := by
  refine ⟨fun s x => rfl, mha_callS_snd, fun s x => ?_⟩
  show { s with mha_layers := (mhaFold s.mha_layers (conv1dValid s.embed x)).2 } = s
  rw [mhaFold_snd]

theorem four_rpow_two : (4 : ℝ) ^ (((2 : ℚ) : ℚ) : ℝ) = 16 := by
  rw [show (((2 : ℚ) : ℚ) : ℝ) = ((2 : ℕ) : ℝ) by norm_num, Real.rpow_natCast]
  norm_num

theorem efs_two : embedFilterSizeInt 2 = 16 := by
  unfold embedFilterSizeInt pyInt
  rw [four_rpow_two, if_pos (by norm_num : (0 : ℝ) ≤ 16)]
  rw [show (16 : ℝ) = ((16 : ℤ) : ℝ) by norm_num, Int.floor_intCast]

theorem four_rpow_three_halves : (4 : ℝ) ^ (((3 / 2 : ℚ)) : ℝ) = 8 := by
  have hc : (((3 / 2 : ℚ)) : ℝ) = (3 : ℝ) / 2 := by push_cast; ring
  rw [hc, show (3 : ℝ) / 2 = (1 / 2) * 3 by ring,
    Real.rpow_mul (by norm_num : (0 : ℝ) ≤ 4)]
  have hs : (4 : ℝ) ^ ((1 : ℝ) / 2) = 2 := by
    rw [← Real.sqrt_eq_rpow, show (4 : ℝ) = 2 ^ 2 by norm_num,
      Real.sqrt_sq (by norm_num : (0 : ℝ) ≤ 2)]
  rw [hs, show (3 : ℝ) = ((3 : ℕ) : ℝ) by norm_num, Real.rpow_natCast]
  norm_num

theorem efs_three_halves : embedFilterSizeInt (3 / 2) = 8 := by
  unfold embedFilterSizeInt pyInt
  rw [four_rpow_three_halves, if_pos (by norm_num : (0 : ℝ) ≤ 8)]
  rw [show (8 : ℝ) = ((8 : ℤ) : ℝ) by norm_num, Int.floor_intCast]

theorem pyInt_pos_floor (x : ℝ) (h : 0 < x) : pyInt x = ⌊x⌋ := by
  unfold pyInt
  rw [if_pos h.le]

theorem mhaInitList_ok (n : ℕ) (dm nh : ℤ) (un : Bool) (a : ActKind)
    (c : MHAConfig) (h : MultiHeadAttention_init dm nh un a = .ok c) :
    mhaInitList n dm nh un a = .ok (List.replicate n c) := by
  induction n with
  | zero => rfl
  | succ m ih => simp [mhaInitList, h, ih, List.replicate_succ]

theorem mha_init_valid (kd nh : ℤ) (un : Bool) (a : ActKind) (hnh : nh ≠ 0) :
    MultiHeadAttention_init (kd * nh) nh un a =
      .ok { num_heads := nh, d_model := kd * nh, use_norm := un,
            depth := kd * nh / nh, activation := a } := by
  unfold MultiHeadAttention_init
  rw [if_neg hnh, if_neg (not_not_intro (Int.mul_emod_left kd nh))]

theorem graph_vit_init_two :
    Graph_ViT_init 2 8 2 true 1 .relu true = .ok cfg256 := by
  unfold Graph_ViT_init
  rw [if_neg (by norm_num), if_neg (by norm_num)]
  rw [mhaInitList_ok ((1 : ℤ).toNat) (8 * 2) 2 true ActKind.relu _
    (mha_init_valid 8 2 true ActKind.relu (by norm_num))]
  rw [show embedFilterSizeInt 2 = 16 from efs_two]
  rfl

/-- C6: construction errors.  `Graph_ViT.__init__` raises `IOError` for every
`p ≤ 1` and `AssertionError` for every `n_layers < 1`;
`MultiHeadAttention.__init__` fails whenever `num_heads` does not divide
`d_model`; every configuration with `p > 1`, `n_layers ≥ 1` and a non-zero
head count succeeds; and `Graph_ViT(p=2, key_dim=8, num_heads=2)` exposes
`embedding_size = 16` and `embed_filter_size = 16`. -/
theorem construction_error_conditions :
    (∀ (p : ℚ) (kd nh : ℤ) (pe : Bool) (nl : ℤ) (a : ActKind) (ln : Bool),
      p ≤ 1 → Graph_ViT_init p kd nh pe nl a ln = .error .ioError) ∧
    (∀ (p : ℚ) (kd nh : ℤ) (pe : Bool) (nl : ℤ) (a : ActKind) (ln : Bool),
      1 < p → nl < 1 → Graph_ViT_init p kd nh pe nl a ln = .error .assertionError) ∧
    (∀ (dm nh : ℤ) (un : Bool) (a : ActKind),
      ¬ nh ∣ dm → exceptIsOk (MultiHeadAttention_init dm nh un a) = false) ∧
    (∀ (p : ℚ) (kd nh : ℤ) (pe : Bool) (nl : ℤ) (a : ActKind) (ln : Bool),
      1 < p → 1 ≤ nl → nh ≠ 0 →
      exceptIsOk (Graph_ViT_init p kd nh pe nl a ln) = true) ∧
    (Graph_ViT_init 2 8 2 true 1 .relu true = .ok cfg256 ∧
      cfg256.embedding_size = 16 ∧ cfg256.embed_filter_size = 16) := by
  refine ⟨?_, ?_, ?_, ?_, graph_vit_init_two, rfl, rfl⟩
  · intro p kd nh pe nl a ln h
    unfold Graph_ViT_init
    rw [if_pos (not_lt.mpr h)]
  · intro p kd nh pe nl a ln hp hnl
    unfold Graph_ViT_init
    rw [if_neg (not_not_intro hp), if_pos (not_le.mpr hnl)]
  · intro dm nh un a h
    unfold MultiHeadAttention_init
    by_cases h0 : nh = 0
    · simp [h0, exceptIsOk]
    · have hne : dm % nh ≠ 0 := fun hc => h (Int.dvd_of_emod_eq_zero hc)
      simp [h0, hne, exceptIsOk]
  · intro p kd nh pe nl a ln hp hnl hnh
    unfold Graph_ViT_init
    rw [if_neg (not_not_intro hp), if_neg (not_not_intro hnl)]
    rw [mhaInitList_ok nl.toNat (kd * nh) nh ln a _ (mha_init_valid kd nh ln a hnh)]
    rfl

/-- Witness for C6 at concrete configurations. -/
theorem construction_error_conditions_witness :
    Graph_ViT_init 1 8 2 true 1 .relu true = .error .ioError ∧
    Graph_ViT_init 2 8 2 true 0 .relu true = .error .assertionError ∧
    exceptIsOk (MultiHeadAttention_init 10 3 true .relu) = false ∧
    exceptIsOk (Graph_ViT_init 2 8 2 true 1 .relu true) = true :=
  ⟨construction_error_conditions.1 1 8 2 true 1 .relu true le_rfl,
   construction_error_conditions.2.1 2 8 2 true 0 .relu true (by norm_num) (by norm_num),
   construction_error_conditions.2.2.1 10 3 true .relu (by decide),
   construction_error_conditions.2.2.2.1 2 8 2 true 1 .relu true (by norm_num)
     (by norm_num) (by norm_num)⟩

/-- C9: construction accepts every rational `p > 1`, integer or not, and the
stored patch size is `int(4 ** p)` — truncation toward zero, which for the
positive value `4 ** p` is the floor. -/
theorem graph_vit_accepts_fractional_p (p : ℚ) (kd nh : ℤ) (pe : Bool)
    (nl : ℤ) (a : ActKind) (ln : Bool)
    (hp : 1 < p) (hnl : 1 ≤ nl) (hnh : nh ≠ 0) :
    exceptIsOk (Graph_ViT_init p kd nh pe nl a ln) = true ∧
    (∀ cfg, Graph_ViT_init p kd nh pe nl a ln = .ok cfg →
      cfg.embed_filter_size = pyInt ((4 : ℝ) ^ (p : ℝ)) ∧
        cfg.embed_filter_size = ⌊(4 : ℝ) ^ (p : ℝ)⌋) := by
  have hok : Graph_ViT_init p kd nh pe nl a ln = .ok
      { p := p
        embed_filter_size := embedFilterSizeInt p
        key_dim := kd
        num_heads := nh
        embedding_size := kd * nh
        positional_encoding := pe
        n_layers := nl
        layer_norm := ln
        activation := a
        mha_configs := List.replicate nl.toNat
          { num_heads := nh, d_model := kd * nh, use_norm := ln,
            depth := kd * nh / nh, activation := a } } := by
    unfold Graph_ViT_init
    rw [if_neg (not_not_intro hp), if_neg (not_not_intro hnl)]
    rw [mhaInitList_ok nl.toNat (kd * nh) nh ln a _ (mha_init_valid kd nh ln a hnh)]
  refine ⟨by rw [hok]; rfl, ?_⟩
  intro cfg hcfg
  rw [hok] at hcfg
  have hc : cfg.embed_filter_size = embedFilterSizeInt p := by
    cases hcfg
    rfl
  refine ⟨hc, ?_⟩
  rw [hc]
  exact pyInt_pos_floor _ (Real.rpow_pos_of_pos (by norm_num) _)

/-- Witness for C9 at the non-integer value p = 3/2, patch size 8. -/
theorem graph_vit_accepts_fractional_p_witness :
    exceptIsOk (Graph_ViT_init (3 / 2) 4 2 true 1 .relu true) = true ∧
    embedFilterSizeInt (3 / 2) = 8 :=
  ⟨(graph_vit_accepts_fractional_p (3 / 2) 4 2 true 1 .relu true (by norm_num)
      (by norm_num) (by norm_num)).1,
   efs_three_halves⟩

theorem conv1dOutLen_dvd (n f : ℕ) (hf : 0 < f) (hd : f ∣ n) :
    conv1dOutLen n f f = n / f := by
  obtain ⟨m, rfl⟩ := hd
  unfold conv1dOutLen
  cases m with
  | zero => simp [hf]
  | succ m2 =>
    have hle : ¬ f * (m2 + 1) < f := by
      push_neg
      calc f = f * 1 := (mul_one f).symm
        _ ≤ f * (m2 + 1) := Nat.mul_le_mul_left f (by omega)
    rw [if_neg hle]
    have h1 : f * (m2 + 1) - f = f * m2 := by
      rw [Nat.mul_succ]
      omega
    rw [h1, Nat.mul_div_cancel_left m2 hf, Nat.mul_div_cancel_left (m2 + 1) hf]

/-- C7: for an input shape (batch, n_nodes, channels), `Graph_ViT.build`
raises exactly when the patch size does not divide `n_nodes`; when it does
divide, the built patch-embedding convolution yields `n_nodes / patch_size`
patch vectors per batch element, each of width `embedding_size`. -/
theorem graph_vit_build_shapes (cfg : GraphViTConfig) (b n c : ℤ)
    (hf : 0 < cfg.embed_filter_size) :
    ((exceptIsOk (Graph_ViT_build cfg [b, n, c]) = false) ↔
      ¬ cfg.embed_filter_size ∣ n) ∧
    (∀ (pr : Conv1DParams) (x : Mat),
      pr.kernel.length = cfg.embed_filter_size.toNat →
      pr.strides = cfg.embed_filter_size.toNat →
      pr.bias.length = cfg.embedding_size.toNat →
      cfg.embed_filter_size.toNat ∣ x.length →
      (conv1dValid pr x).length = x.length / cfg.embed_filter_size.toNat ∧
        ∀ r ∈ conv1dValid pr x, r.length = cfg.embedding_size.toNat) := by
  constructor
  · unfold Graph_ViT_build
    rw [if_neg (by omega : ¬ cfg.embed_filter_size = 0)]
    show (exceptIsOk (if ([b, n, c].getD 1 0) % cfg.embed_filter_size ≠ 0
      then .error .ioError else .ok _) = false) ↔ _
    by_cases hd : cfg.embed_filter_size ∣ n
    · have hz : n % cfg.embed_filter_size = 0 := Int.emod_eq_zero_of_dvd hd
      simp [List.getD, hz, hd, exceptIsOk]
    · have hz : n % cfg.embed_filter_size ≠ 0 :=
        fun hc => hd (Int.dvd_of_emod_eq_zero hc)
      simp [List.getD, hz, hd, exceptIsOk]
  · intro pr x h1 h2 h3 hdvd
    have hfn : 0 < cfg.embed_filter_size.toNat := by omega
    constructor
    · unfold conv1dValid
      rw [List.length_map, List.length_range, h1, h2,
        conv1dOutLen_dvd x.length cfg.embed_filter_size.toNat hfn hdvd]
    · intro r hr
      unfold conv1dValid at hr
      obtain ⟨i, _, rfl⟩ := List.mem_map.mp hr
      simp [h3]

/-- Witness for C7: with patch size 16, building on 250 nodes fails and a
256-node input yields 16 patch vectors. -/
theorem graph_vit_build_shapes_witness :
    (exceptIsOk (Graph_ViT_build cfg256 [2, 250, 3]) = false) ∧
    (conv1dValid convW xNodes).length = 16 := by
  constructor
  · exact (graph_vit_build_shapes cfg256 2 250 3 (by decide)).1.mpr (by decide)
  · have h := ((graph_vit_build_shapes cfg256 2 256 3 (by decide)).2 convW xNodes
      (by simp only [convW, cfg256, List.length_replicate]; rfl)
      (by simp only [convW, cfg256]; rfl)
      (by simp only [convW, cfg256, List.length_replicate]; rfl)
      (by simp only [xNodes, cfg256, List.length_replicate]; decide)).1
    rw [h]
    simp only [xNodes, cfg256, List.length_replicate]
    decide

/-- C3 evidence: `Graph_ViT.build` at line 256 hands `pos_encoder.build` the
raw input shape, so for `Graph_ViT(p=2, key_dim=8, num_heads=2)` built on
shape (2, 256, 3), the positional-embedding weight has shape (1, 256, 3) —
not the post-embedding shape (1, n_nodes/4^p, key_dim*num_heads) = (1, 16, 16)
the spec states. -/
theorem pos_embedding_built_with_raw_input_shape :
    Graph_ViT_init 2 8 2 true 1 .relu true = .ok cfg256 ∧
    Graph_ViT_build cfg256 [2, 256, 3] = .ok (some [1, 256, 3]) ∧
    ([1, 256, 3] : List ℤ) ≠ [1, 256 / 16, 8 * 2] :=
  ⟨graph_vit_init_two, rfl, by decide⟩

end DeepSphere
